import Mathlib

/-!
Shallow embedding of the ResQNet backend core: the incident lifecycle
endpoints of `app/routes/incidents.py` and the WebSocket channel registry of
`app/ws_handlers/handler.py`, together with the enums and the `Incident`
record of `app/models/db_models.py`.

Modelling conventions:
* SQLAlchemy rows become Lean structures; nullable columns become `Option`.
* `datetime.utcnow()` is modelled by an explicit `now : Nat` argument.
* Float coordinates are carried as `Int`; no operation computes on them.
* A route's `db.query(...).first()` lookups are modelled by passing the
  lookup result (`Option _`) as an argument; `raise HTTPException` becomes
  `Except HTTPException _`.
* WebSocket connections are identified by `Nat`; a send that raises inside
  `broadcast_to_channel`'s `try/except` is modelled by a `fails` predicate.
-/

set_option autoImplicit false

namespace ResQNet

/-- Incident lifecycle states, from `IncidentStatus` in `db_models.py`. -/
inductive IncidentStatus where
  | REPORTED
  | ASSIGNED_NGO
  | EMERGENCY_DISPATCHED
  | NGO_RESPONDING
  | ESCALATED_GOV
  | RESOLVED
  deriving DecidableEq, Repr

/-- Severity levels, from `IncidentSeverity` in `db_models.py`. -/
inductive IncidentSeverity where
  | LOW
  | MEDIUM
  | HIGH
  | CRITICAL
  deriving DecidableEq, Repr

/-- Message kinds, from `MessageType` in `db_models.py`. -/
inductive MessageType where
  | INCIDENT_REPORT
  | UPDATE
  | ESCALATION
  | SYSTEM
  deriving DecidableEq, Repr

/-- The string value of a severity member, as in the `str`-enum. -/
def IncidentSeverity.value : IncidentSeverity → String
  | .LOW => "low"
  | .MEDIUM => "medium"
  | .HIGH => "high"
  | .CRITICAL => "critical"

/-- The string value of a status member, as in the `str`-enum. -/
def IncidentStatus.value : IncidentStatus → String
  | .REPORTED => "reported"
  | .ASSIGNED_NGO => "assigned_ngo"
  | .EMERGENCY_DISPATCHED => "emergency_dispatched"
  | .NGO_RESPONDING => "ngo_responding"
  | .ESCALATED_GOV => "escalated_gov"
  | .RESOLVED => "resolved"

/-- The `incidents` row of `db_models.py`, restricted to the columns the
incident routes read or write.  Nullable columns are `Option`s; timestamps
are abstract `Nat` instants. -/
structure Incident where
  id : String
  reporter_id : Option String
  incident_type : String
  severity : IncidentSeverity
  status : IncidentStatus
  latitude : Int
  longitude : Int
  address : String
  city : String
  state : String
  description : Option String
  approx_people_affected : Int
  casualties : Bool
  terror_related : Bool
  aid_needed : Option String
  image_urls : Option (List String)
  assigned_ngo_id : Option String
  assigned_at : Option Nat
  escalated_to_gov : Bool
  escalation_reason : Option String
  escalated_at : Option Nat
  danger_scale : Option Int
  financial_aid_estimate : Option String
  emergency_dispatched_at : Option Nat
  ngo_responded_at : Option Nat
  resolved_at : Option Nat
  resolution_notes : Option String
  created_at : Nat
  deriving DecidableEq, Repr

/-- Request body of `POST /api/incidents/` (`IncidentCreate`). -/
structure IncidentCreate where
  incident_type : String
  severity : String
  latitude : Int
  longitude : Int
  description : Option String
  approx_people_affected : Int
  casualties : Bool
  terror_related : Bool
  aid_needed : Option String
  image_urls : Option (List String)
  deriving DecidableEq, Repr

/-- Request body of `PUT /api/incidents/.../escalate` (`IncidentEscalate`). -/
structure IncidentEscalate where
  danger_scale : Int
  terror_related : Bool
  financial_aid_estimate : Option String
  incident_details : String
  deriving DecidableEq, Repr

/-- The result of `reverse_geocode`, the fields `create_incident` reads. -/
structure GeoInfo where
  display_name : String
  city : String
  state : String
  deriving DecidableEq, Repr

/-- The `ngos` row, restricted to what `assign_to_ngo` reads. -/
structure NGO where
  id : String
  name : String
  deriving DecidableEq, Repr

/-- The `volunteer_profiles` row, restricted to what `assign_to_ngo` reads. -/
structure VolunteerProfile where
  ngo_id : String
  user_id : String
  deriving DecidableEq, Repr

/-- The `gov_authority_accounts` row, restricted to what `escalate_to_gov`
reads: the routable user, the jurisdiction string and the account status. -/
structure GovAuthorityAccount where
  user_id : String
  jurisdiction : String
  account_status : String
  deriving DecidableEq, Repr

/-- A `messages` row as built by the incident routes. -/
structure Message where
  sender_id : Option String
  receiver_id : String
  incident_id : String
  message_type : MessageType
  subject : String
  content : String
  deriving DecidableEq, Repr

/-- A FastAPI `HTTPException`, as raised by the incident routes. -/
structure HTTPException where
  status_code : Nat
  detail : String
  deriving DecidableEq, Repr

/-- Python's `str.lower()` (ASCII folding, which covers every string the
routes compare): lowercase each character. -/
def strLower (s : String) : String := ⟨s.data.map Char.toLower⟩

/-- The `severity_map` dictionary of `create_incident`: recognized severity
strings to enum members; lookups miss on every other string. -/
def severity_map (s : String) : Option IncidentSeverity :=
  if s = "low" then some .LOW
  else if s = "medium" then some .MEDIUM
  else if s = "high" then some .HIGH
  else if s = "critical" then some .CRITICAL
  else none

/-- `create_incident` from `incidents.py`: reverse-geocoding is modelled by
the `location` argument (the geocoder catches its own errors and degrades to
empty strings, so this call always yields a `GeoInfo`).  The severity string
is lowercased and looked up in `severity_map`, defaulting to `MEDIUM`; the
new row starts at `REPORTED` with every milestone timestamp and assignment
field null. -/
def create_incident (incident_data : IncidentCreate) (location : GeoInfo)
    (reporter_id : Option String) (new_id : String) (now : Nat) : Incident :=
  { id := new_id
    reporter_id := reporter_id
    incident_type := incident_data.incident_type
    severity := (severity_map (strLower incident_data.severity)).getD .MEDIUM
    status := .REPORTED
    latitude := incident_data.latitude
    longitude := incident_data.longitude
    address := location.display_name
    city := location.city
    state := location.state
    description := incident_data.description
    approx_people_affected := incident_data.approx_people_affected
    casualties := incident_data.casualties
    terror_related := incident_data.terror_related
    aid_needed := incident_data.aid_needed
    image_urls := incident_data.image_urls
    assigned_ngo_id := none
    assigned_at := none
    escalated_to_gov := false
    escalation_reason := none
    escalated_at := none
    danger_scale := none
    financial_aid_estimate := none
    emergency_dispatched_at := none
    ngo_responded_at := none
    resolved_at := none
    resolution_notes := none
    created_at := now }

/-- The `status_map` dictionary of `update_status`: the six recognized
status strings; `.get` misses on every other string. -/
def status_map (s : String) : Option IncidentStatus :=
  if s = "reported" then some .REPORTED
  else if s = "assigned_ngo" then some .ASSIGNED_NGO
  else if s = "emergency_dispatched" then some .EMERGENCY_DISPATCHED
  else if s = "ngo_responding" then some .NGO_RESPONDING
  else if s = "escalated_gov" then some .ESCALATED_GOV
  else if s = "resolved" then some .RESOLVED
  else none

/-- `update_status` from `incidents.py` (`PUT /api/incidents/.../status`).
The requested status string is lowercased and looked up in `status_map`; an
unknown string raises 400 before any field of the incident is touched.  A
recognized status is written unconditionally — the route performs no check
against the current status — and the matching milestone timestamp is set for
`EMERGENCY_DISPATCHED`, `NGO_RESPONDING` and `RESOLVED` (the latter also
storing the notes). -/
def update_status (incident? : Option Incident) (status_s : String)
    (notes : Option String) (now : Nat) : Except HTTPException Incident :=
  match incident? with
  | none => .error ⟨404, "Incident not found"⟩
  | some incident =>
    match status_map (strLower status_s) with
    | none => .error ⟨400, "Invalid status"⟩
    | some new_status =>
      let inc := { incident with status := new_status }
      let inc :=
        if new_status = .EMERGENCY_DISPATCHED then
          { inc with emergency_dispatched_at := some now }
        else if new_status = .NGO_RESPONDING then
          { inc with ngo_responded_at := some now }
        else if new_status = .RESOLVED then
          { inc with resolved_at := some now, resolution_notes := notes }
        else inc
      .ok inc

/-- `assign_to_ngo` from `incidents.py` (`PUT /api/incidents/.../assign`).
The incident and NGO lookups are the only guards (404 on a miss); the
assignment itself is unconditional: `assigned_ngo_id`, `assigned_at` and
`status := ASSIGNED_NGO` are written whatever the current state.  When the
NGO has a first volunteer, a notification `Message` row is also created. -/
def assign_to_ngo (incident? : Option Incident) (ngo? : Option NGO)
    (ngo_id : String) (volunteer? : Option VolunteerProfile)
    (sender_id : Option String) (now : Nat) :
    Except HTTPException (Incident × Option Message) :=
  match incident? with
  | none => .error ⟨404, "Incident not found"⟩
  | some incident =>
    match ngo? with
    | none => .error ⟨404, "NGO not found"⟩
    | some _ngo =>
      let inc := { incident with
        assigned_ngo_id := some ngo_id
        assigned_at := some now
        status := .ASSIGNED_NGO }
      let msg := volunteer?.map fun volunteer =>
        { sender_id := sender_id
          receiver_id := volunteer.user_id
          incident_id := incident.id
          message_type := MessageType.INCIDENT_REPORT
          subject := "New Incident: " ++ incident.incident_type
          content := "Incident reported at " ++ incident.address ++ ". " ++
            incident.description.getD "No description provided."
          : Message }
      .ok (inc, msg)

/-- Lowercase both strings and test whether `needle` occurs as a contiguous
substring of `hay`: the meaning of SQL `hay ILIKE '%needle%'`.  Character
lists are compared position by position. -/
def startsWithChars : List Char → List Char → Bool
  | [], _ => true
  | _ :: _, [] => false
  | a :: as, b :: bs => a == b && startsWithChars as bs

/-- Whether `needle` occurs contiguously inside `hay` (character lists). -/
def containsSub (needle : List Char) : List Char → Bool
  | [] => needle.isEmpty
  | c :: rest => startsWithChars needle (c :: rest) || containsSub needle rest

/-- Case-insensitive substring test on strings (`ILIKE '%needle%'`). -/
def containsCI (hay needle : String) : Bool :=
  containsSub (strLower needle).data (strLower hay).data

/-- The filter of the `GovAuthorityAccount` query in `escalate_to_gov`:
`jurisdiction ILIKE '%state%'` and `account_status == "approved"`. -/
def govMatches (state : String) (a : GovAuthorityAccount) : Bool :=
  containsCI a.jurisdiction state && a.account_status == "approved"

/-- The `.first()` of the jurisdiction query: the first stored account whose
jurisdiction contains the incident's state (case-insensitively) and whose
status is approved. -/
def find_gov_authority (accounts : List GovAuthorityAccount) (state : String) :
    Option GovAuthorityAccount :=
  accounts.find? (govMatches state)

/-- `escalate_to_gov` from `incidents.py` (`PUT /api/incidents/.../escalate`).
Only the incident lookup can fail (404).  The escalation fields are written
unconditionally — the route validates neither the danger scale nor the
current status — and the government notification `Message` is created only
when the jurisdiction query finds an approved matching authority; a miss
skips the message and the rest of the escalation still commits. -/
def escalate_to_gov (incident? : Option Incident)
    (escalation : IncidentEscalate) (escalator_id : Option String)
    (accounts : List GovAuthorityAccount) (now : Nat) :
    Except HTTPException (Incident × Option Message) :=
  match incident? with
  | none => .error ⟨404, "Incident not found"⟩
  | some incident =>
    let inc := { incident with
      escalated_to_gov := true
      escalated_at := some now
      danger_scale := some escalation.danger_scale
      terror_related := escalation.terror_related
      financial_aid_estimate := escalation.financial_aid_estimate
      escalation_reason := some escalation.incident_details
      status := .ESCALATED_GOV }
    let msg := (find_gov_authority accounts incident.state).map
      fun gov_authority =>
        { sender_id := escalator_id
          receiver_id := gov_authority.user_id
          incident_id := incident.id
          message_type := MessageType.ESCALATION
          subject := "ESCALATION: " ++ incident.incident_type ++
            " - Danger Level " ++ toString escalation.danger_scale
          content := escalation.incident_details
          : Message }
    .ok (inc, msg)

/-! ### The WebSocket channel registry (`app/ws_handlers/handler.py`)

`ConnectionManager.active_connections` is `Dict[str, List[WebSocket]]` and
`user_connections` is `Dict[str, Set[WebSocket]]`.  Both dictionaries are
modelled as insertion-ordered association lists (a Python dict appends a new
key at the end and holds each key once); connection handles are `Nat`. -/

/-- Channel map lookup: the value stored under `ch`, first entry wins. -/
def lookupChannel (m : List (String × List Nat)) (ch : String) :
    Option (List Nat) :=
  match m with
  | [] => none
  | (k, conns) :: rest => if k = ch then some conns else lookupChannel rest ch

/-- The channel half of `connect`: create the entry with `[]` when absent
(`if channel not in ...`), then append the websocket to the channel's list. -/
def addToChannel (m : List (String × List Nat)) (ch : String) (ws : Nat) :
    List (String × List Nat) :=
  match m with
  | [] => [(ch, [ws])]
  | (k, conns) :: rest =>
    if k = ch then (k, conns ++ [ws]) :: rest
    else (k, conns) :: addToChannel rest ch ws

/-- The channel half of `disconnect`: when the channel exists, remove the
first occurrence of the websocket (`list.remove`) and delete the entry when
the remaining list is empty.  An absent channel is left untouched. -/
def removeFromChannel (m : List (String × List Nat)) (ch : String) (ws : Nat) :
    List (String × List Nat) :=
  match m with
  | [] => []
  | (k, conns) :: rest =>
    if k = ch then
      let conns2 := conns.erase ws
      if conns2.isEmpty then rest else (k, conns2) :: rest
    else (k, conns) :: removeFromChannel rest ch ws

/-- Overwrite the value stored under an existing channel key, keeping the
entry even when the new value is empty (broadcast pruning never deletes). -/
def setChannel (m : List (String × List Nat)) (ch : String) (v : List Nat) :
    List (String × List Nat) :=
  match m with
  | [] => []
  | (k, conns) :: rest =>
    if k = ch then (k, v) :: rest else (k, conns) :: setChannel rest ch v

/-- The user half of `connect`: `set.add` — create the singleton set when
the user is absent, otherwise add the websocket if not already present. -/
def addToUser (m : List (String × List Nat)) (u : String) (ws : Nat) :
    List (String × List Nat) :=
  match m with
  | [] => [(u, [ws])]
  | (k, conns) :: rest =>
    if k = u then (k, if ws ∈ conns then conns else conns ++ [ws]) :: rest
    else (k, conns) :: addToUser rest u ws

/-- The user half of `disconnect`: `set.discard` then delete-if-empty. -/
def removeFromUser (m : List (String × List Nat)) (u : String) (ws : Nat) :
    List (String × List Nat) :=
  match m with
  | [] => []
  | (k, conns) :: rest =>
    if k = u then
      let conns2 := conns.erase ws
      if conns2.isEmpty then rest else (k, conns2) :: rest
    else (k, conns) :: removeFromUser rest u ws

/-- The `ConnectionManager` state: both registries. -/
structure ConnectionManager where
  active_connections : List (String × List Nat)
  user_connections : List (String × List Nat)
  deriving DecidableEq, Repr

/-- `ConnectionManager.connect` (the `websocket.accept()` handshake is
transport-side and has no registry effect). -/
def connect (mgr : ConnectionManager) (ws : Nat) (channel : String)
    (user_id : Option String) : ConnectionManager :=
  { active_connections := addToChannel mgr.active_connections channel ws
    user_connections :=
      match user_id with
      | none => mgr.user_connections
      | some u => addToUser mgr.user_connections u ws }

/-- `ConnectionManager.disconnect`. -/
def disconnect (mgr : ConnectionManager) (ws : Nat) (channel : String)
    (user_id : Option String) : ConnectionManager :=
  { active_connections := removeFromChannel mgr.active_connections channel ws
    user_connections :=
      match user_id with
      | none => mgr.user_connections
      | some u => removeFromUser mgr.user_connections u ws }

/-- `ConnectionManager.broadcast_to_channel`.  `fails ws = true` models
`send_json` raising for that connection; the `try/except` swallows the
error, records the connection in `disconnected`, and the loop carries on, so
every subscriber with a working transport receives the message.  Afterwards
each recorded connection is `list.remove`d — removing every failing
occurrence is exactly `List.filter` by the non-failing predicate — and the
(possibly now empty) channel entry is written back, never deleted.  Returns
the new manager state and the list of connections that received the
message; a missing channel broadcasts to nobody.  The function is total:
no delivery failure reaches the caller. -/
def broadcast_to_channel (mgr : ConnectionManager) (channel : String)
    (fails : Nat → Bool) : ConnectionManager × List Nat :=
  match lookupChannel mgr.active_connections channel with
  | none => (mgr, [])
  | some conns =>
    let delivered := conns.filter fun c => !fails c
    ({ mgr with
        active_connections :=
          setChannel mgr.active_connections channel
            (conns.filter fun c => !fails c) },
      delivered)

/-! ### Concrete sample states used by counterexamples and witnesses -/

/-- A freshly reported incident (all milestone fields null). -/
def sampleIncident : Incident :=
  { id := "inc-1"
    reporter_id := some "user-1"
    incident_type := "fire"
    severity := .HIGH
    status := .REPORTED
    latitude := 12
    longitude := 77
    address := "12 Main St"
    city := "Bengaluru"
    state := "Karnataka"
    description := none
    approx_people_affected := 3
    casualties := false
    terror_related := false
    aid_needed := none
    image_urls := none
    assigned_ngo_id := none
    assigned_at := none
    escalated_to_gov := false
    escalation_reason := none
    escalated_at := none
    danger_scale := none
    financial_aid_estimate := none
    emergency_dispatched_at := none
    ngo_responded_at := none
    resolved_at := none
    resolution_notes := none
    created_at := 0 }

/-- The same incident after resolution. -/
def resolvedIncident : Incident :=
  { sampleIncident with status := .RESOLVED, resolved_at := some 3 }

/-- The same incident while assigned to an NGO. -/
def assignedIncident : Incident :=
  { sampleIncident with
      status := .ASSIGNED_NGO
      assigned_ngo_id := some "ngo-1"
      assigned_at := some 1 }

/-- A second NGO, target of a double assignment. -/
def sampleNGO : NGO := { id := "ngo-2", name := "Helping Hands" }

/-- A creation request with an unrecognized severity string. -/
def badSeverityCreate : IncidentCreate :=
  { incident_type := "flood"
    severity := "extreme"
    latitude := 12
    longitude := 77
    description := none
    approx_people_affected := 0
    casualties := false
    terror_related := false
    aid_needed := none
    image_urls := none }

/-- A geocoder result for the sample location. -/
def sampleGeo : GeoInfo :=
  { display_name := "12 Main St", city := "Bengaluru", state := "Karnataka" }

/-- An escalation request whose danger scale is outside `[1,5]`. -/
def badEscalate : IncidentEscalate :=
  { danger_scale := 0
    terror_related := false
    financial_aid_estimate := none
    incident_details := "levee breached" }

deriving instance DecidableEq for Except

/-- The list of channel keys currently registered. -/
def channelKeys (m : List (String × List Nat)) : List String :=
  m.map Prod.fst

/-- A transport on which every send succeeds. -/
def noFail : Nat → Bool := fun _ => false

/-- A transport on which every send raises. -/
def allFail : Nat → Bool := fun _ => true

/-- A transport on which exactly connection 2 raises. -/
def failsTwo : Nat → Bool := fun n => n == 2

/-- A manager with no registrations. -/
def emptyMgr : ConnectionManager := ⟨[], []⟩

/-- A manager whose only channel has a lone subscriber. -/
def soloMgr : ConnectionManager := ⟨[("gov:karnataka", [5])], []⟩

/-- A manager about to prune its only subscriber of `incident:1`. -/
def pruneMgr : ConnectionManager := ⟨[("incident:1", [7])], []⟩

/-- A manager with three subscribers of `incident:1`. -/
def bMgr : ConnectionManager := ⟨[("incident:1", [1, 2, 3])], []⟩

/-- A government account whose jurisdiction matches Karnataka but whose
registration is still pending. -/
def govPending : GovAuthorityAccount :=
  { user_id := "gov-1", jurisdiction := "State of Karnataka",
    account_status := "pending" }

/-- An approved government account for Karnataka. -/
def govApproved : GovAuthorityAccount :=
  { user_id := "gov-2", jurisdiction := "Government of Karnataka",
    account_status := "approved" }

/-- The stored government accounts, the pending one first. -/
def sampleAccounts : List GovAuthorityAccount := [govPending, govApproved]

/-! ## Claims about the incident state machine -/

/-- C1, counterexample: the claim says every `transition` out of `RESOLVED`
fails with `InvalidTransition` and leaves the incident unchanged; in the
code, moving a resolved incident back to `REPORTED` succeeds and changes the
status. -/
theorem C1_resolved_transition_cex :
    update_status (some resolvedIncident) "reported" none 9 =
      Except.ok { resolvedIncident with status := .REPORTED } := by decide

/-- C1, amended: `update_status` enforces no ordering at all.  For every
incident — whatever its current status, `RESOLVED` included — and every
recognized status string, the update succeeds and the status becomes the
requested one. -/
theorem C1_transition_unguarded (inc : Incident) (s : String)
    (st : IncidentStatus) (notes : Option String) (now : Nat)
    (h : status_map (strLower s) = some st) :
    (update_status (some inc) s notes now).map Incident.status =
      Except.ok st := by
  cases st <;> simp [update_status, h, Except.map]

/-- C1, witness: a resolved incident is moved to `ASSIGNED_NGO`. -/
theorem C1_transition_unguarded_w :
    (update_status (some resolvedIncident) "assigned_ngo" none 7).map
      Incident.status = Except.ok IncidentStatus.ASSIGNED_NGO :=
  C1_transition_unguarded resolvedIncident "assigned_ngo" .ASSIGNED_NGO none 7
    (by decide)

/-- C2, counterexample: the claim says `assign` on an incident already in
`ASSIGNED_NGO` fails with `InvalidTransition` and leaves `assigned_ngo` and
`assigned_at` unchanged; in the code, reassigning `assignedIncident` (held
by `ngo-1` since instant 1) to `ngo-2` succeeds and overwrites both
fields. -/
theorem C2_reassign_cex :
    assign_to_ngo (some assignedIncident) (some sampleNGO) "ngo-2" none none 9 =
      Except.ok
        ({ assignedIncident with
            assigned_ngo_id := some "ngo-2"
            assigned_at := some 9
            status := .ASSIGNED_NGO }, none) := by decide

/-- C2, amended: `assign_to_ngo` checks only that the incident and the NGO
exist; it never inspects the current status.  From any state it succeeds,
setting `status = ASSIGNED_NGO`, `assigned_ngo_id` to the responder and
`assigned_at` to now. -/
theorem C2_assign_unguarded (inc : Incident) (ngo : NGO) (ngo_id : String)
    (volunteer? : Option VolunteerProfile) (sender_id : Option String)
    (now : Nat) :
    (assign_to_ngo (some inc) (some ngo) ngo_id volunteer? sender_id now).map
        (fun r => (r.1.status, r.1.assigned_ngo_id, r.1.assigned_at)) =
      Except.ok (IncidentStatus.ASSIGNED_NGO, some ngo_id, some now) := by
  simp [assign_to_ngo, Except.map]

/-- C3, counterexample: the claim says `escalate` rejects a danger scale
outside `[1,5]` with `ValidationError` and a resolved incident with
`InvalidTransition`; in the code, escalating a resolved incident with
danger scale 0 succeeds and stores the out-of-range scale. -/
theorem C3_escalate_cex :
    escalate_to_gov (some resolvedIncident) badEscalate none [] 9 =
      Except.ok
        ({ resolvedIncident with
            escalated_to_gov := true
            escalated_at := some 9
            danger_scale := some 0
            terror_related := false
            financial_aid_estimate := none
            escalation_reason := some "levee breached"
            status := .ESCALATED_GOV }, none) := by decide

/-- C3, amended: `escalate_to_gov` validates neither the danger scale nor
the current status.  For every incident (resolved ones included) and every
integer danger scale it succeeds, setting the escalation fields and
`status = ESCALATED_GOV`. -/
theorem C3_escalate_unguarded (inc : Incident) (esc : IncidentEscalate)
    (escalator_id : Option String) (accounts : List GovAuthorityAccount)
    (now : Nat) :
    (escalate_to_gov (some inc) esc escalator_id accounts now).map
        (fun r =>
          (r.1.status, r.1.escalated_to_gov, r.1.escalated_at,
            r.1.danger_scale, r.1.escalation_reason,
            r.1.financial_aid_estimate)) =
      Except.ok
        (IncidentStatus.ESCALATED_GOV, true, some now,
          some esc.danger_scale, some esc.incident_details,
          esc.financial_aid_estimate) := by
  simp [escalate_to_gov, Except.map]

/-- C4, counterexample: the claim says `create` fails with
`ValidationError` on a severity string outside the four recognized levels;
in the code, creating with severity `"extreme"` succeeds, silently mapped
to `MEDIUM`. -/
theorem C4_create_bad_severity_cex :
    (create_incident badSeverityCreate sampleGeo none "inc-2" 4).severity =
        IncidentSeverity.MEDIUM ∧
      (create_incident badSeverityCreate sampleGeo none "inc-2" 4).status =
        IncidentStatus.REPORTED := by decide

/-- C4, amended: `create_incident` never rejects a severity string: an
unrecognized one silently defaults to `MEDIUM` (recognized ones are mapped
case-insensitively).  Every creation yields `status = REPORTED` with the
assignment fields and all milestone timestamps null. -/
theorem C4_create_defaults (d : IncidentCreate) (loc : GeoInfo)
    (reporter_id : Option String) (new_id : String) (now : Nat) :
    (create_incident d loc reporter_id new_id now).severity =
        (severity_map (strLower d.severity)).getD .MEDIUM ∧
      (create_incident d loc reporter_id new_id now).status = .REPORTED ∧
      (create_incident d loc reporter_id new_id now).assigned_ngo_id = none ∧
      (create_incident d loc reporter_id new_id now).assigned_at = none ∧
      (create_incident d loc reporter_id new_id now).escalated_at = none ∧
      (create_incident d loc reporter_id new_id now).emergency_dispatched_at
        = none ∧
      (create_incident d loc reporter_id new_id now).ngo_responded_at = none ∧
      (create_incident d loc reporter_id new_id now).resolved_at = none :=
  ⟨rfl, rfl, rfl, rfl, rfl, rfl, rfl, rfl⟩

/-- The invariant of claim C5: the assignment timestamp is set exactly when
an NGO is assigned. -/
def assignedInv (i : Incident) : Prop :=
  i.assigned_at.isSome = i.assigned_ngo_id.isSome

/-- C5: `assigned_at` is non-null exactly when `assigned_ngo_id` is, and
every operation of the state machine preserves this: a fresh incident has
both null, `update_status` and `escalate_to_gov` touch neither field, and
`assign_to_ngo` always sets both. -/
theorem C5_assigned_iff_assigned_at (d : IncidentCreate) (loc : GeoInfo)
    (reporter_id : Option String) (new_id : String) (inc : Incident)
    (s : String) (notes : Option String) (now : Nat) (ngo : NGO)
    (ngo_id : String) (volunteer? : Option VolunteerProfile)
    (sender_id : Option String) (esc : IncidentEscalate)
    (escalator_id : Option String) (accounts : List GovAuthorityAccount) :
    assignedInv (create_incident d loc reporter_id new_id now) ∧
    (assignedInv inc → ∀ inc2,
      update_status (some inc) s notes now = .ok inc2 → assignedInv inc2) ∧
    (∀ inc2 msg,
      assign_to_ngo (some inc) (some ngo) ngo_id volunteer? sender_id now =
        .ok (inc2, msg) → assignedInv inc2) ∧
    (assignedInv inc → ∀ inc2 msg,
      escalate_to_gov (some inc) esc escalator_id accounts now =
        .ok (inc2, msg) → assignedInv inc2) := by
  refine ⟨rfl, ?_, ?_, ?_⟩
  · intro hinv inc2 he
    cases hsm : status_map (strLower s) with
    | none => simp [update_status, hsm] at he
    | some st =>
      simp only [update_status, hsm] at he
      split_ifs at he <;> (injection he with he; subst he; exact hinv)
  · intro inc2 msg he
    simp only [assign_to_ngo] at he
    injection he with he
    obtain ⟨rfl, rfl⟩ := Prod.mk.injEq .. ▸ he
    rfl
  · intro hinv inc2 msg he
    simp only [escalate_to_gov] at he
    injection he with he
    obtain ⟨rfl, rfl⟩ := Prod.mk.injEq .. ▸ he
    exact hinv

/-- C5, witness: the invariant after a concrete create, a concrete
resolution of `sampleIncident`, a concrete assignment and a concrete
escalation. -/
theorem C5_assigned_iff_assigned_at_w :
    assignedInv (create_incident badSeverityCreate sampleGeo none "inc-2" 4) ∧
    assignedInv { sampleIncident with
      status := IncidentStatus.RESOLVED, resolved_at := some 9 } ∧
    assignedInv { sampleIncident with
      assigned_ngo_id := some "ngo-2"
      assigned_at := some 9
      status := IncidentStatus.ASSIGNED_NGO } :=
  ⟨(C5_assigned_iff_assigned_at badSeverityCreate sampleGeo none "inc-2"
      sampleIncident "resolved" none 4 sampleNGO "ngo-2" none none
      badEscalate none []).1,
   (C5_assigned_iff_assigned_at badSeverityCreate sampleGeo none "inc-2"
      sampleIncident "resolved" none 9 sampleNGO "ngo-2" none none
      badEscalate none []).2.1 rfl _ (by decide),
   (C5_assigned_iff_assigned_at badSeverityCreate sampleGeo none "inc-2"
      sampleIncident "resolved" none 9 sampleNGO "ngo-2" none none
      badEscalate none []).2.2.1 _ none (by decide)⟩

/-- C10: the generic status update accepts a status string exactly when its
lowercase form is one of the six enumerated values — so mixed-case input is
accepted — and every other string is rejected with a 400 "Invalid status"
error carrying no state change. -/
theorem C10_status_string_validation (s : String) (inc : Incident)
    (notes : Option String) (now : Nat) :
    ((status_map (strLower s)).isSome = true ↔
      strLower s ∈ ["reported", "assigned_ngo", "emergency_dispatched",
        "ngo_responding", "escalated_gov", "resolved"]) ∧
    (status_map (strLower s) = none →
      update_status (some inc) s notes now =
        .error ⟨400, "Invalid status"⟩) := by
  constructor
  · generalize strLower s = t
    unfold status_map
    split_ifs <;> simp_all
  · intro h
    simp [update_status, h]

/-- C10, witness: the mixed-case string "RESOLVED" is accepted and the
string "bogus" is rejected with a 400 before any state change. -/
theorem C10_status_string_validation_w :
    (status_map (strLower "RESOLVED")).isSome = true ∧
    update_status (some sampleIncident) "bogus" none 0 =
      .error ⟨400, "Invalid status"⟩ :=
  ⟨(C10_status_string_validation "RESOLVED" sampleIncident none 0).1.mpr
      (by decide),
   (C10_status_string_validation "bogus" sampleIncident none 0).2
      (by decide)⟩

/-! ## Registry lemmas (shared) -/

/-- Subscribing appends the connection to the channel's list, creating the
entry when absent. -/
theorem lookupChannel_addToChannel_self (m : List (String × List Nat))
    (ch : String) (ws : Nat) :
    lookupChannel (addToChannel m ch ws) ch =
      some (((lookupChannel m ch).getD []) ++ [ws]) := by
  induction m with
  | nil => simp [addToChannel, lookupChannel]
  | cons e rest ih =>
    obtain ⟨k, conns⟩ := e
    by_cases hk : k = ch
    · subst hk; simp [addToChannel, lookupChannel]
    · simp [addToChannel, lookupChannel, hk, ih]

/-- Overwriting an existing entry is observed by lookup. -/
theorem lookupChannel_setChannel_self (m : List (String × List Nat))
    (ch : String) (v : List Nat) (h : (lookupChannel m ch).isSome = true) :
    lookupChannel (setChannel m ch v) ch = some v := by
  induction m with
  | nil => simp [lookupChannel] at h
  | cons e rest ih =>
    obtain ⟨k, conns⟩ := e
    by_cases hk : k = ch
    · subst hk; simp [setChannel, lookupChannel]
    · simp [setChannel, lookupChannel, hk] at h ⊢; exact ih h

/-- Unfolding `channelKeys` over a cons cell. -/
theorem channelKeys_cons (k : String) (v : List Nat)
    (rest : List (String × List Nat)) :
    channelKeys ((k, v) :: rest) = k :: channelKeys rest := rfl

/-- A key that is not registered looks up to nothing. -/
theorem lookupChannel_eq_none_of_not_mem (m : List (String × List Nat))
    (ch : String) (h : ch ∉ channelKeys m) : lookupChannel m ch = none := by
  induction m with
  | nil => rfl
  | cons e rest ih =>
    obtain ⟨k, conns⟩ := e
    rw [channelKeys_cons, List.mem_cons] at h
    push_neg at h
    simp [lookupChannel, Ne.symm h.1, ih h.2]

/-- Removing from an absent channel is a no-op. -/
theorem removeFromChannel_of_none (m : List (String × List Nat)) (ch : String)
    (ws : Nat) (h : lookupChannel m ch = none) :
    removeFromChannel m ch ws = m := by
  induction m with
  | nil => rfl
  | cons e rest ih =>
    obtain ⟨k, conns⟩ := e
    by_cases hk : k = ch
    · subst hk; simp [lookupChannel] at h
    · simp [lookupChannel, hk] at h
      simp [removeFromChannel, hk, ih h]

/-- Removing a connection that is not subscribed from a non-empty channel is
a no-op. -/
theorem removeFromChannel_eq_self (m : List (String × List Nat)) (ch : String)
    (ws : Nat) (v : List Nat) (h : lookupChannel m ch = some v)
    (hws : ws ∉ v) (hne : v ≠ []) : removeFromChannel m ch ws = m := by
  induction m with
  | nil => simp [lookupChannel] at h
  | cons e rest ih =>
    obtain ⟨k, conns⟩ := e
    by_cases hk : k = ch
    · subst hk
      simp [lookupChannel] at h
      subst h
      cases hv : conns with
      | nil => exact absurd hv hne
      | cons a t =>
        subst hv
        simp [removeFromChannel, List.erase_of_not_mem hws]
    · simp [lookupChannel, hk] at h
      simp [removeFromChannel, hk, ih h]

/-- Unsubscribing leaves the shrunken list in place when it stays
non-empty. -/
theorem lookupChannel_removeFromChannel_pos (m : List (String × List Nat))
    (ch : String) (ws : Nat) (v : List Nat)
    (h : lookupChannel m ch = some v) (hne : (v.erase ws).isEmpty = false) :
    lookupChannel (removeFromChannel m ch ws) ch = some (v.erase ws) := by
  induction m with
  | nil => simp [lookupChannel] at h
  | cons e rest ih =>
    obtain ⟨k, conns⟩ := e
    by_cases hk : k = ch
    · subst hk
      simp [lookupChannel] at h
      subst h
      simp [removeFromChannel, lookupChannel, hne]
    · simp [lookupChannel, hk] at h
      simp [removeFromChannel, lookupChannel, hk, ih h]

/-- Unsubscribing the last subscriber deletes the entry (given the key
uniqueness a Python dict guarantees). -/
theorem lookupChannel_removeFromChannel_empty (m : List (String × List Nat))
    (ch : String) (ws : Nat) (v : List Nat)
    (hnd : (channelKeys m).Nodup) (h : lookupChannel m ch = some v)
    (he : (v.erase ws).isEmpty = true) :
    lookupChannel (removeFromChannel m ch ws) ch = none := by
  induction m with
  | nil => simp [lookupChannel] at h
  | cons e rest ih =>
    obtain ⟨k, conns⟩ := e
    by_cases hk : k = ch
    · subst hk
      simp [lookupChannel] at h
      subst h
      rw [channelKeys_cons, List.nodup_cons] at hnd
      simp [removeFromChannel, he]
      exact lookupChannel_eq_none_of_not_mem rest _ hnd.1
    · rw [channelKeys_cons, List.nodup_cons] at hnd
      simp [lookupChannel, hk] at h
      simp [removeFromChannel, lookupChannel, hk]
      exact ih hnd.2 h

/-- Every key after a subscribe was already registered or is the subscribed
channel. -/
theorem mem_channelKeys_addToChannel (m : List (String × List Nat))
    (ch : String) (ws : Nat) (x : String)
    (h : x ∈ channelKeys (addToChannel m ch ws)) :
    x ∈ channelKeys m ∨ x = ch := by
  induction m with
  | nil =>
    right
    simpa [addToChannel, channelKeys] using h
  | cons e rest ih =>
    obtain ⟨k, conns⟩ := e
    by_cases hk : k = ch
    · subst hk
      have ha : addToChannel ((k, conns) :: rest) k ws =
          (k, conns ++ [ws]) :: rest := by simp [addToChannel]
      rw [ha, channelKeys_cons] at h
      rw [channelKeys_cons]
      simp only [List.mem_cons] at h ⊢
      tauto
    · simp only [addToChannel, if_neg hk, channelKeys_cons, List.mem_cons]
        at h ⊢
      rcases h with h | h
      · tauto
      · rcases ih h with h2 | h2 <;> tauto

/-- Subscribing keeps the channel keys duplicate-free. -/
theorem channelKeys_addToChannel_nodup (m : List (String × List Nat))
    (ch : String) (ws : Nat) (h : (channelKeys m).Nodup) :
    (channelKeys (addToChannel m ch ws)).Nodup := by
  induction m with
  | nil => simp [addToChannel, channelKeys]
  | cons e rest ih =>
    obtain ⟨k, conns⟩ := e
    rw [channelKeys_cons, List.nodup_cons] at h
    by_cases hk : k = ch
    · subst hk
      have ha : addToChannel ((k, conns) :: rest) k ws =
          (k, conns ++ [ws]) :: rest := by simp [addToChannel]
      rw [ha, channelKeys_cons, List.nodup_cons]
      exact h
    · simp only [addToChannel, if_neg hk, channelKeys_cons, List.nodup_cons]
      refine ⟨?_, ih h.2⟩
      intro hmem
      rcases mem_channelKeys_addToChannel rest ch ws k hmem with h2 | h2
      · exact h.1 h2
      · exact hk h2

/-! ## Claims about the channel registry -/

/-- C6: broadcasting to a channel delivers the message once per
subscription to every connection whose send succeeds — a failing subscriber
neither aborts delivery to the others nor surfaces an error (the function is
total) — and every failing subscriber is pruned from the channel's list
while the others stay subscribed. -/
theorem C6_broadcast_best_effort (mgr : ConnectionManager) (ch : String)
    (conns : List Nat) (fails : Nat → Bool)
    (h : lookupChannel mgr.active_connections ch = some conns) :
    (∀ c, fails c = false →
      List.count c (broadcast_to_channel mgr ch fails).2 =
        List.count c conns) ∧
    (∀ c, fails c = true →
      List.count c (broadcast_to_channel mgr ch fails).2 = 0) ∧
    lookupChannel (broadcast_to_channel mgr ch fails).1.active_connections
        ch = some (conns.filter fun c => !fails c) := by
  refine ⟨?_, ?_, ?_⟩
  · intro c hc
    simp only [broadcast_to_channel, h]
    exact List.count_filter (by simp [hc])
  · intro c hc
    simp only [broadcast_to_channel, h]
    refine List.count_eq_zero.mpr ?_
    intro hmem
    rw [List.mem_filter] at hmem
    simp [hc] at hmem
  · simp only [broadcast_to_channel, h]
    exact lookupChannel_setChannel_self _ _ _ (by simp [h])

/-- C6, witness: broadcasting to `incident:1` with subscribers 1, 2, 3 while
connection 2's transport raises delivers once to 1 (and 3), nothing to 2,
and leaves only 1 and 3 subscribed. -/
theorem C6_broadcast_best_effort_w :
    List.count 1 (broadcast_to_channel bMgr "incident:1" failsTwo).2 =
        List.count 1 [1, 2, 3] ∧
      List.count 2 (broadcast_to_channel bMgr "incident:1" failsTwo).2 = 0 ∧
      lookupChannel
          (broadcast_to_channel bMgr "incident:1"
            failsTwo).1.active_connections "incident:1" =
        some (List.filter (fun c => !failsTwo c) [1, 2, 3]) :=
  ⟨(C6_broadcast_best_effort bMgr "incident:1" [1, 2, 3] failsTwo
      (by decide)).1 1 (by decide),
   (C6_broadcast_best_effort bMgr "incident:1" [1, 2, 3] failsTwo
      (by decide)).2.1 2 (by decide),
   (C6_broadcast_best_effort bMgr "incident:1" [1, 2, 3] failsTwo
      (by decide)).2.2⟩

/-- C8, counterexample: the claim says a channel entry exists only while it
has at least one subscriber, deletion happening also on removal by
broadcast-failure pruning; in the code, pruning the last subscriber of
`incident:1` leaves the entry registered with an empty subscriber list. -/
theorem C8_empty_entry_cex :
    lookupChannel
        (broadcast_to_channel pruneMgr "incident:1"
          allFail).1.active_connections "incident:1" = some [] := by decide

/-- C8, amended: the entry is created lazily by the first subscribe and
`disconnect` deletes it when the last subscriber is removed, but
broadcast-failure pruning never deletes it: pruning every subscriber leaves
an empty entry in the registry. -/
theorem C8_channel_lifecycle (mgr : ConnectionManager) (ch : String)
    (ws : Nat) (u : Option String) (conns : List Nat) (fails : Nat → Bool) :
    (lookupChannel mgr.active_connections ch = none →
      lookupChannel (connect mgr ws ch u).active_connections ch =
        some [ws]) ∧
    ((channelKeys mgr.active_connections).Nodup →
      lookupChannel mgr.active_connections ch = some [ws] →
      lookupChannel (disconnect mgr ws ch u).active_connections ch = none) ∧
    (lookupChannel mgr.active_connections ch = some conns → conns ≠ [] →
      (∀ x ∈ conns, fails x = true) →
      lookupChannel
        (broadcast_to_channel mgr ch fails).1.active_connections ch =
          some []) := by
  refine ⟨?_, ?_, ?_⟩
  · intro h
    simp only [connect]
    rw [lookupChannel_addToChannel_self, h]
    rfl
  · intro hnd h
    simp only [disconnect]
    exact lookupChannel_removeFromChannel_empty _ _ _ _ hnd h (by simp)
  · intro h hne hall
    have hf : List.filter (fun c => !fails c) conns = [] := by
      rw [List.filter_eq_nil_iff]
      intro a ha
      simp [hall a ha]
    simp only [broadcast_to_channel, h, hf]
    exact lookupChannel_setChannel_self _ _ _ (by simp [h])

/-- C8, witness: lazy creation on a fresh manager, deletion by the last
disconnect, and the pruned-but-surviving empty entry, each at a concrete
registry state. -/
theorem C8_channel_lifecycle_w :
    lookupChannel
        (connect emptyMgr 4 "gov:karnataka" none).active_connections
        "gov:karnataka" = some [4] ∧
      lookupChannel
        (disconnect soloMgr 5 "gov:karnataka" none).active_connections
        "gov:karnataka" = none ∧
      lookupChannel
        (broadcast_to_channel pruneMgr "incident:1"
          allFail).1.active_connections "incident:1" = some [] :=
  ⟨(C8_channel_lifecycle emptyMgr "gov:karnataka" 4 none [] allFail).1
      (by decide),
   (C8_channel_lifecycle soloMgr "gov:karnataka" 5 none [] allFail).2.1
      (by decide) (by decide),
   (C8_channel_lifecycle pruneMgr "incident:1" 7 none [7] allFail).2.2
      (by decide) (by decide) (by decide)⟩

/-- C9: subscribing a fresh connection `c` to `incident:X` and broadcasting
over a healthy transport delivers to `c` exactly once; after unsubscribing,
a further broadcast delivers nothing to `c`; and a second unsubscribe is a
no-op (idempotence). -/
theorem C9_roundtrip (mgr : ConnectionManager) (c : Nat) (X : String)
    (hnd : (channelKeys mgr.active_connections).Nodup)
    (h : List.count c
      ((lookupChannel mgr.active_connections ("incident:" ++ X)).getD [])
        = 0) :
    List.count c
        (broadcast_to_channel (connect mgr c ("incident:" ++ X) none)
          ("incident:" ++ X) noFail).2 = 1 ∧
      List.count c
        (broadcast_to_channel
          (disconnect (connect mgr c ("incident:" ++ X) none) c
            ("incident:" ++ X) none) ("incident:" ++ X) noFail).2 = 0 ∧
      disconnect
          (disconnect (connect mgr c ("incident:" ++ X) none) c
            ("incident:" ++ X) none) c ("incident:" ++ X) none =
        disconnect (connect mgr c ("incident:" ++ X) none) c
          ("incident:" ++ X) none := by
  set ch := "incident:" ++ X with hch
  set v0 := (lookupChannel mgr.active_connections ch).getD [] with hv0
  have hc0 : c ∉ v0 := List.count_eq_zero.mp h
  have hlk1 : lookupChannel (connect mgr c ch none).active_connections ch =
      some (v0 ++ [c]) := by
    simp only [connect]
    rw [lookupChannel_addToChannel_self]
  have herase : (v0 ++ [c]).erase c = v0 := by
    rw [List.erase_append_right _ hc0, List.erase_cons_head]
    simp
  have hnd1 : (channelKeys
      (connect mgr c ch none).active_connections).Nodup := by
    simp only [connect]
    exact channelKeys_addToChannel_nodup _ _ _ hnd
  refine ⟨?_, ?_, ?_⟩
  · simp only [broadcast_to_channel, hlk1]
    rw [List.count_filter (by simp [noFail])]
    rw [List.count_append, List.count_eq_zero.mpr hc0]
    simp
  · cases hv : v0 with
    | nil =>
      have hlk2 : lookupChannel
          (disconnect (connect mgr c ch none) c ch none).active_connections
          ch = none := by
        simp only [disconnect]
        refine lookupChannel_removeFromChannel_empty _ _ _ _ hnd1 hlk1 ?_
        rw [herase, hv]
        rfl
      simp [broadcast_to_channel, hlk2]
    | cons a t =>
      have hlk2 : lookupChannel
          (disconnect (connect mgr c ch none) c ch none).active_connections
          ch = some v0 := by
        simp only [disconnect]
        have := lookupChannel_removeFromChannel_pos _ ch c (v0 ++ [c]) hlk1
          (by rw [herase, hv]; rfl)
        rwa [herase] at this
      simp only [broadcast_to_channel, hlk2]
      refine List.count_eq_zero.mpr ?_
      intro hmem
      rw [List.mem_filter] at hmem
      exact hc0 hmem.1
  · have huser : (disconnect (connect mgr c ch none) c ch
        none).user_connections = (connect mgr c ch none).user_connections :=
      rfl
    cases hv : v0 with
    | nil =>
      have hlk2 : lookupChannel
          (disconnect (connect mgr c ch none) c ch none).active_connections
          ch = none := by
        simp only [disconnect]
        refine lookupChannel_removeFromChannel_empty _ _ _ _ hnd1 hlk1 ?_
        rw [herase, hv]
        rfl
      simp only [disconnect] at hlk2 ⊢
      rw [removeFromChannel_of_none _ _ _ hlk2]
    | cons a t =>
      have hlk2 : lookupChannel
          (disconnect (connect mgr c ch none) c ch none).active_connections
          ch = some v0 := by
        simp only [disconnect]
        have := lookupChannel_removeFromChannel_pos _ ch c (v0 ++ [c]) hlk1
          (by rw [herase, hv]; rfl)
        rwa [herase] at this
      simp only [disconnect] at hlk2 ⊢
      rw [removeFromChannel_eq_self _ _ _ v0 hlk2 hc0 (by rw [hv]; simp)]

/-- C9, witness: connection 5 on channel `incident:42` of the empty
manager. -/
theorem C9_roundtrip_w :
    List.count 5
        (broadcast_to_channel (connect emptyMgr 5 ("incident:" ++ "42") none)
          ("incident:" ++ "42") noFail).2 = 1 ∧
      List.count 5
        (broadcast_to_channel
          (disconnect (connect emptyMgr 5 ("incident:" ++ "42") none) 5
            ("incident:" ++ "42") none) ("incident:" ++ "42") noFail).2
          = 0 ∧
      disconnect
          (disconnect (connect emptyMgr 5 ("incident:" ++ "42") none) 5
            ("incident:" ++ "42") none) 5 ("incident:" ++ "42") none =
        disconnect (connect emptyMgr 5 ("incident:" ++ "42") none) 5
          ("incident:" ++ "42") none :=
  C9_roundtrip emptyMgr 5 "42" (by decide) (by decide)

/-! ## Substring correctness and jurisdiction resolution (C7) -/

/-- `startsWithChars n h` holds exactly when `n` is a prefix of `h`. -/
theorem startsWithChars_iff (n h : List Char) :
    startsWithChars n h = true ↔ ∃ r, h = n ++ r := by
  induction n generalizing h with
  | nil => simp [startsWithChars]
  | cons a as ih =>
    cases h with
    | nil => simp [startsWithChars]
    | cons b bs =>
      rw [startsWithChars, Bool.and_eq_true, beq_iff_eq, ih]
      constructor
      · rintro ⟨rfl, r, rfl⟩
        exact ⟨r, rfl⟩
      · rintro ⟨r, hr⟩
        rw [List.cons_append] at hr
        injection hr with h1 h2
        exact ⟨h1.symm, r, h2⟩

/-- `containsSub n h` holds exactly when `n` occurs contiguously in `h`. -/
theorem containsSub_iff (n h : List Char) :
    containsSub n h = true ↔ ∃ l r, h = l ++ n ++ r := by
  induction h with
  | nil =>
    rw [containsSub, List.isEmpty_iff]
    constructor
    · rintro rfl
      exact ⟨[], [], rfl⟩
    · rintro ⟨l, r, hl⟩
      have h2 := hl.symm
      rw [List.append_eq_nil, List.append_eq_nil] at h2
      exact h2.1.2
  | cons c rest ih =>
    rw [containsSub, Bool.or_eq_true, startsWithChars_iff, ih]
    constructor
    · rintro (⟨r, hr⟩ | ⟨l, r, hr⟩)
      · exact ⟨[], r, by simpa using hr⟩
      · exact ⟨c :: l, r, by simp [hr]⟩
    · rintro ⟨l, r, hl⟩
      cases l with
      | nil =>
        left
        exact ⟨r, by simpa using hl⟩
      | cons x xs =>
        right
        simp only [List.cons_append, List.append_assoc] at hl
        injection hl with h1 h2
        exact ⟨xs, r, by simp [h2]⟩

/-- C7: the government target of an escalation is the first stored account
whose (lowercased) jurisdiction contains the incident's (lowercased) state
as a substring and whose status is approved; when no account matches, the
government message is dropped while the escalation itself still succeeds
with all state changes applied and no error raised. -/
theorem C7_jurisdiction_resolution (inc : Incident) (esc : IncidentEscalate)
    (escalator_id : Option String) (accounts : List GovAuthorityAccount)
    (now : Nat) :
    (∀ a, govMatches inc.state a = true ↔
      ((∃ l r, (strLower a.jurisdiction).data =
          l ++ (strLower inc.state).data ++ r) ∧
        a.account_status = "approved")) ∧
    (∀ g, find_gov_authority accounts inc.state = some g →
      govMatches inc.state g = true ∧
      ∃ pre suff, accounts = pre ++ g :: suff ∧
        ∀ a ∈ pre, govMatches inc.state a = false) ∧
    ((escalate_to_gov (some inc) esc escalator_id accounts now).map
        (fun r => r.2.map Message.receiver_id) =
      Except.ok ((find_gov_authority accounts inc.state).map
        GovAuthorityAccount.user_id)) ∧
    (find_gov_authority accounts inc.state = none →
      escalate_to_gov (some inc) esc escalator_id accounts now =
        .ok ({ inc with
            escalated_to_gov := true
            escalated_at := some now
            danger_scale := some esc.danger_scale
            terror_related := esc.terror_related
            financial_aid_estimate := esc.financial_aid_estimate
            escalation_reason := some esc.incident_details
            status := .ESCALATED_GOV }, none)) := by
  refine ⟨?_, ?_, ?_, ?_⟩
  · intro a
    rw [govMatches, Bool.and_eq_true, beq_iff_eq, containsCI, containsSub_iff]
  · intro g hg
    rw [find_gov_authority, List.find?_eq_some] at hg
    obtain ⟨hp, pre, suff, rfl, hall⟩ := hg
    refine ⟨hp, pre, suff, rfl, ?_⟩
    intro a ha
    have := hall a ha
    simpa using this
  · cases hf : find_gov_authority accounts inc.state with
    | none => simp [escalate_to_gov, Except.map, hf]
    | some g => simp [escalate_to_gov, Except.map, hf]
  · intro h
    simp [escalate_to_gov, h]

/-- C7, witness: with `sampleIncident` (state "Karnataka") the approved
account for "Government of Karnataka" matches even though its jurisdiction
is cased differently, and escalating when the only stored account is still
pending drops the message but completes the escalation. -/
theorem C7_jurisdiction_resolution_w :
    govMatches sampleIncident.state govApproved = true ∧
    escalate_to_gov (some sampleIncident) badEscalate none [govPending] 9 =
      .ok ({ sampleIncident with
          escalated_to_gov := true
          escalated_at := some 9
          danger_scale := some 0
          terror_related := false
          financial_aid_estimate := none
          escalation_reason := some "levee breached"
          status := .ESCALATED_GOV }, none) :=
  ⟨((C7_jurisdiction_resolution sampleIncident badEscalate none
      sampleAccounts 9).2.1 govApproved (by decide)).1,
   (C7_jurisdiction_resolution sampleIncident badEscalate none
      [govPending] 9).2.2.2 (by decide)⟩

end ResQNet
